import Mathlib

/-!
Verification of the bitboard chess move-generation core
(`src/chess/board.rs`, `src/chess/cmove.rs`, `src/chess/src/utils.rs`,
`src/board/bitboard.rs`, `src/board.rs`) against its specification.

Bitboards are 64-bit words; we embed them as `Nat` values below `2 ^ 64`,
taking the result modulo `2 ^ 64` wherever the Rust operation could
overflow (left shifts, bitwise complement).  Fallible operations
(`unwrap`, `panic!`) are embedded with `Option`: `none` models abnormal
termination.
-/

namespace Chess

/-- All 64 bits set: the value of `!0u64`, used for `Bitboard(!0)`. -/
def U64MASK : Nat := 2 ^ 64 - 1

/-- Rust `!b` on `u64` (bitwise complement), for `b < 2 ^ 64`. -/
def bnot (b : Nat) : Nat := U64MASK ^^^ b

/-- Rust `b << k` on `u64` (left shift discards bits above 63). -/
def shl (b : Nat) (k : Nat) : Nat := (b <<< k) &&& U64MASK

/-- Rust `b >> k` on `u64`. -/
def shr (b : Nat) (k : Nat) : Nat := b >>> k

/-- Rust `NOT_A_FILE` from src/board/bitboard.rs. -/
def NOT_A_FILE : Nat := 0xfefefefefefefefe
/-- Rust `NOT_H_FILE` from src/board/bitboard.rs. -/
def NOT_H_FILE : Nat := 0x7f7f7f7f7f7f7f7f
/-- Rust `RANK4` from src/board/bitboard.rs. -/
def RANK4 : Nat := 0x00000000ff000000
/-- Rust `RANK5` from src/board/bitboard.rs. -/
def RANK5 : Nat := 0x000000ff00000000

/-- Start-position constants from src/board/bitboard.rs. -/
def PAWN_START : Nat := 0x00ff00000000ff00
def KNIGHT_START : Nat := 0x4200000000000042
def BISHOP_START : Nat := 0x2400000000000024
def ROOK_START : Nat := 0x8100000000000081
def QUEEN_START : Nat := 0x0800000000000008
def KING_START : Nat := 0x1000000000000010
def WHITE_START : Nat := 0x000000000000ffff
def BLACK_START : Nat := 0xffff000000000000
def EMPTY_START : Nat := 0x0000ffffffff0000
def OCCUPIED_START : Nat := 0xffff00000000ffff

namespace Bitboard

/-- Rust `Bitboard::sout_one` (src/board/bitboard.rs). -/
def sout_one (b : Nat) : Nat := shr b 8
/-- Rust `Bitboard::nort_one`. -/
def nort_one (b : Nat) : Nat := shl b 8
/-- Rust `Bitboard::east_one`. -/
def east_one (b : Nat) : Nat := shl b 1 &&& NOT_A_FILE
/-- Rust `Bitboard::west_one`. -/
def west_one (b : Nat) : Nat := shr b 1 &&& NOT_H_FILE
/-- Rust `Bitboard::noea_one`. -/
def noea_one (b : Nat) : Nat := shl b 9 &&& NOT_A_FILE
/-- Rust `Bitboard::soea_one`. -/
def soea_one (b : Nat) : Nat := shr b 7 &&& NOT_A_FILE
/-- Rust `Bitboard::sowe_one`. -/
def sowe_one (b : Nat) : Nat := shr b 9 &&& NOT_H_FILE
/-- Rust `Bitboard::nowe_one`. -/
def nowe_one (b : Nat) : Nat := shl b 7 &&& NOT_H_FILE

/-- Scan bits `i, i+1, ...` of `b` (at most `fuel` of them) and return the
first set index.  `findBitFrom b 64 0` computes the `u64`
`trailing_zeros` result of `bit_scan`: the least-significant set bit. -/
def findBitFrom (b : Nat) : Nat → Nat → Option Nat
  | 0, _ => none
  | fuel + 1, i => if b.testBit i then some i else findBitFrom b fuel (i + 1)

/-- Rust `Bitboard::bit_scan` (src/board/bitboard.rs lines 112-115):
`trailing_zeros`, with `None` when the count is 64 (empty board). -/
def bit_scan (b : Nat) : Option Nat := findBitFrom b 64 0

/-- Scan bits `63 - i, 63 - (i+1), ...` of `b` and return the first `i`
whose bit `63 - i` is set, i.e. the number of leading zeros.  Used by
`bit_scan_reverse` below, which (as in the source) returns the
leading-zero count itself, not the index `63 - lz` of the most
significant set bit. -/
def findTopBit (b : Nat) : Nat → Nat → Option Nat
  | 0, _ => none
  | fuel + 1, i => if b.testBit (63 - i) then some i else findTopBit b fuel (i + 1)

/-- Rust `Bitboard::bit_scan_reverse` (src/board/bitboard.rs lines 119-122):
returns `Some(leading_zeros)` for a non-empty board, `None` for the
empty board.  (Its doc comment promises the index of the most
significant set bit, which would be `63 - leading_zeros`.) -/
def bit_scan_reverse (b : Nat) : Option Nat := findTopBit b 64 0

/-- Rust `Bitboard::occupied`: the board is non-empty.  Modelled from the spec:
the chess crate's bitboard module is not under src/; §3.2 requires the
usual emptiness tests. -/
def occupied (b : Nat) : Bool := b != 0

/-- Rust `Bitboard::empty`.  Modelled from the spec: see `occupied`. -/
def isEmpty (b : Nat) : Bool := b == 0

/-- Rust `Bitboard::count` (population count).  Modelled from the spec (§3.2). -/
def count (b : Nat) : Nat := ((List.range 64).filter (fun i => b.testBit i)).length

/-- Iteration over set bits in ascending order.  Modelled from the spec:
the chess crate's bitboard `Iterator` impl is not under src/; §3.2 fixes
iteration as ascending-index extraction of the least significant bit. -/
def toList (b : Nat) : List Nat := (List.range 64).filter (fun i => b.testBit i)

end Bitboard

/-- Rust `Color` (src/chess/src/utils.rs). -/
inductive Color where
  | white
  | black
deriving DecidableEq, Repr

def Color.toNat : Color → Nat
  | .white => 0
  | .black => 1

/-- Rust `Not for Color` (src/chess/src/utils.rs). -/
def Color.op : Color → Color
  | .white => .black
  | .black => .white

/-- Rust `Piece` (src/chess/src/utils.rs). -/
inductive Piece where
  | pawn
  | knight
  | bishop
  | rook
  | queen
  | king
deriving DecidableEq, Repr

def Piece.toNat : Piece → Nat
  | .pawn => 0
  | .knight => 1
  | .bishop => 2
  | .rook => 3
  | .queen => 4
  | .king => 5

/-- Rust `FromPrimitive` for `Piece`. -/
def Piece.ofNat? : Nat → Option Piece
  | 0 => some .pawn
  | 1 => some .knight
  | 2 => some .bishop
  | 3 => some .rook
  | 4 => some .queen
  | 5 => some .king
  | _ => none

/-- Rust `CPiece` (src/chess/src/utils.rs): a piece with its color. -/
structure CPiece where
  piece : Piece
  color : Color
deriving DecidableEq, Repr

/-- Rust `Dir` (src/chess/src/utils.rs), in declaration order
`Nort, Noea, East, Soea, Sout, Sowe, West, Nowe`. -/
inductive Dir where
  | nort
  | noea
  | east
  | soea
  | sout
  | sowe
  | west
  | nowe
deriving DecidableEq, Repr

def Dir.toNat : Dir → Nat
  | .nort => 0
  | .noea => 1
  | .east => 2
  | .soea => 3
  | .sout => 4
  | .sowe => 5
  | .west => 6
  | .nowe => 7

/-- Rust `Dir::pos` (src/chess/src/utils.rs): false on `West, Sout, Sowe, Soea`. -/
def Dir.pos : Dir → Bool
  | .west | .sout | .sowe | .soea => false
  | _ => true

/-- Squares are the integers `0..63` in LERF order (the Rust `Square`
enum, `A1 = 0 .. H8 = 63`). `Square::as_bitboard`. -/
def squareBB (s : Nat) : Nat := shl 1 s

/-- Rust `Square::translate` (src/chess/src/utils.rs): step `steps` times in
direction `dir`, `None` when the resulting index leaves `0..63`. -/
def translate (s : Nat) (dir : Dir) (steps : Int) : Option Nat :=
  let amount : Int := match dir with
    | .nort => 8 | .noea => 9 | .east => 1 | .soea => -7
    | .sout => -8 | .sowe => -9 | .west => -1 | .nowe => 7
  let r : Int := (s : Int) + amount * steps
  if 0 ≤ r ∧ r < 64 then some r.toNat else none

/-- Move-flag constants from src/chess/cmove.rs. -/
def FLAG_QUIET : Nat := 0
def FLAG_PAWN_DPUSH : Nat := 1
def FLAG_KING_CASTLE : Nat := 2
def FLAG_QUEEN_CASTLE : Nat := 3
def FLAG_CAPTURE : Nat := 4
def FLAG_EP_CAPTURE : Nat := 5

namespace CMove

/-- Rust `CMove::new` (src/chess/cmove.rs): pack flags, from and to into a
16-bit word. -/
def new (from_ to_ flags : Nat) : Nat :=
  (((flags &&& 0xf) <<< 12) ||| (from_ <<< 6) ||| to_) &&& 0xffff

/-- Rust `CMove::get_from`. -/
def get_from (m : Nat) : Nat := (m >>> 6) &&& 0x3f

/-- Rust `CMove::get_to`. -/
def get_to (m : Nat) : Nat := m &&& 0x3f

/-- Rust `CMove::get_flags`. -/
def get_flags (m : Nat) : Nat := m >>> 12

/-- Rust `CMove::is_capture` (src/chess/cmove.rs lines 51-53): tests
`self.0 & CAPTURE != 0` on the whole packed word. -/
def is_capture (m : Nat) : Bool := m &&& FLAG_CAPTURE != 0

/-- Rust `CMove::is_ep_capture`: compares the whole packed word with 5. -/
def is_ep_capture (m : Nat) : Bool := m == FLAG_EP_CAPTURE

/-- Rust `CMove::is_pawn_dpush` (src/chess/cmove.rs lines 59-61): compares the
whole packed word with 1. -/
def is_pawn_dpush (m : Nat) : Bool := m == FLAG_PAWN_DPUSH

/-- Rust `CMove::is_promo`: tests bit 3 of the packed word and reads the
promotion piece from its two lowest bits. -/
def is_promo (m : Nat) : Option Piece :=
  if m &&& 8 > 0 then
    some (match m &&& 3 with
      | 0 => Piece.knight
      | 1 => Piece.bishop
      | 2 => Piece.rook
      | _ => Piece.queen)
  else none

/-- Rust `CMove::is_king_castle`: compares the whole packed word with 2. -/
def is_king_castle (m : Nat) : Bool := m == FLAG_KING_CASTLE

/-- Rust `CMove::is_queen_castle`: compares the whole packed word with 3. -/
def is_queen_castle (m : Nat) : Bool := m == FLAG_QUEEN_CASTLE

end CMove

/-- Rust `PAWN_ATTACKS[color][square]` from src/board/bitboard.rs. -/
def PAWN_ATTACKS : List (List Nat) := [
[
  512, 1280, 2560, 5120, 10240, 20480,
  40960, 16384, 131072, 327680, 655360, 1310720,
  2621440, 5242880, 10485760, 4194304, 33554432, 83886080,
  167772160, 335544320, 671088640, 1342177280, 2684354560, 1073741824,
  8589934592, 21474836480, 42949672960, 85899345920, 171798691840, 343597383680,
  687194767360, 274877906944, 2199023255552, 5497558138880, 10995116277760, 21990232555520,
  43980465111040, 87960930222080, 175921860444160, 70368744177664, 562949953421312, 1407374883553280,
  2814749767106560, 5629499534213120, 11258999068426240, 22517998136852480, 45035996273704960, 18014398509481984,
  144115188075855872, 360287970189639680, 720575940379279360, 1441151880758558720, 2882303761517117440, 5764607523034234880,
  11529215046068469760, 4611686018427387904, 0, 0, 0, 0,
  0, 0, 0, 0],
[
  512, 1024, 2048, 4096, 8192, 16384,
  32768, 0, 131072, 262145, 524290, 1048580,
  2097160, 4194320, 8388640, 64, 33554432, 67109120,
  134218240, 268436480, 536872960, 1073745920, 2147491840, 16384,
  8589934592, 17179934720, 34359869440, 68719738880, 137439477760, 274878955520,
  549757911040, 4194304, 2199023255552, 4398063288320, 8796126576640, 17592253153280,
  35184506306560, 70369012613120, 140738025226240, 1073741824, 562949953421312, 1125904201809920,
  2251808403619840, 4503616807239680, 9007233614479360, 18014467228958720, 36028934457917440, 274877906944,
  144115188075855872, 288231475663339520, 576462951326679040, 1152925902653358080, 2305851805306716160, 4611703610613432320,
  9223407221226864640, 70368744177664, 0, 281474976710656, 562949953421312, 1125899906842624,
  2251799813685248, 4503599627370496, 9007199254740992, 18014398509481984]]

/-- Rust `KING_ATTACKS[square]` from src/board/bitboard.rs. -/
def KING_ATTACKS : List Nat := [
  770, 1797, 3594, 7188, 14376, 28752,
  57504, 49216, 197123, 460039, 920078, 1840156,
  3680312, 7360624, 14721248, 12599488, 50463488, 117769984,
  235539968, 471079936, 942159872, 1884319744, 3768639488, 3225468928,
  12918652928, 30149115904, 60298231808, 120596463616, 241192927232, 482385854464,
  964771708928, 825720045568, 3307175149568, 7718173671424, 15436347342848, 30872694685696,
  61745389371392, 123490778742784, 246981557485568, 211384331665408, 846636838289408, 1975852459884544,
  3951704919769088, 7903409839538176, 15806819679076352, 31613639358152704, 63227278716305408, 54114388906344448,
  216739030602088448, 505818229730443264, 1011636459460886528, 2023272918921773056, 4046545837843546112, 8093091675687092224,
  16186183351374184448, 13853283560024178688, 144959613005987840, 362258295026614272, 724516590053228544, 1449033180106457088,
  2898066360212914176, 5796132720425828352, 11592265440851656704, 4665729213955833856]

/-- Rust `KNIGHT_ATTACKS[square]` from src/board/bitboard.rs. -/
def KNIGHT_ATTACKS : List Nat := [
  132096, 329728, 659712, 1319424, 2638848, 5277696,
  10489856, 4202496, 33816580, 84410376, 168886289, 337772578,
  675545156, 1351090312, 2685403152, 1075839008, 8657044482, 21609056261,
  43234889994, 86469779988, 172939559976, 345879119952, 687463207072, 275414786112,
  2216203387392, 5531918402816, 11068131838464, 22136263676928, 44272527353856, 88545054707712,
  175990581010432, 70506185244672, 567348067172352, 1416171111120896, 2833441750646784, 5666883501293568,
  11333767002587136, 22667534005174272, 45053588738670592, 18049583422636032, 145241105196122112, 362539804446949376,
  725361088165576704, 1450722176331153408, 2901444352662306816, 5802888705324613632, 11533718717099671552, 4620693356194824192,
  288234782788157440, 576469569871282176, 1224997833292120064, 2449995666584240128, 4899991333168480256, 9799982666336960512,
  1152939783987658752, 2305878468463689728, 1128098930098176, 2257297371824128, 4796069720358912, 9592139440717824,
  19184278881435648, 38368557762871296, 4679521487814656, 9077567998918656]

/-- Rust `RAY_ATTACKS[dir][square]` from src/board/bitboard.rs; direction order is
north, northeast, east, southeast, south, southwest, west, northwest. -/
def RAY_ATTACKS : List (List Nat) := [
[
  72340172838076672, 144680345676153344, 289360691352306688, 578721382704613376, 1157442765409226752, 2314885530818453504,
  4629771061636907008, 9259542123273814016, 72340172838076416, 144680345676152832, 289360691352305664, 578721382704611328,
  1157442765409222656, 2314885530818445312, 4629771061636890624, 9259542123273781248, 72340172838010880, 144680345676021760,
  289360691352043520, 578721382704087040, 1157442765408174080, 2314885530816348160, 4629771061632696320, 9259542123265392640,
  72340172821233664, 144680345642467328, 289360691284934656, 578721382569869312, 1157442765139738624, 2314885530279477248,
  4629771060558954496, 9259542121117908992, 72340168526266368, 144680337052532736, 289360674105065472, 578721348210130944,
  1157442696420261888, 2314885392840523776, 4629770785681047552, 9259541571362095104, 72339069014638592, 144678138029277184,
  289356276058554368, 578712552117108736, 1157425104234217472, 2314850208468434944, 4629700416936869888, 9259400833873739776,
  72057594037927936, 144115188075855872, 288230376151711744, 576460752303423488, 1152921504606846976, 2305843009213693952,
  4611686018427387904, 9223372036854775808, 0, 0, 0, 0,
  0, 0, 0, 0],
[
  9241421688590303744, 36099303471055872, 141012904183808, 550831656960, 2151686144, 8404992,
  32768, 0, 4620710844295151616, 9241421688590303232, 36099303471054848, 141012904181760,
  550831652864, 2151677952, 8388608, 0, 2310355422147510272, 4620710844295020544,
  9241421688590041088, 36099303470530560, 141012903133184, 550829555712, 2147483648, 0,
  1155177711056977920, 2310355422113955840, 4620710844227911680, 9241421688455823360, 36099303202095104, 141012366262272,
  549755813888, 0, 577588851233521664, 1155177702467043328, 2310355404934086656, 4620710809868173312,
  9241421619736346624, 36099165763141632, 140737488355328, 0, 288793326105133056, 577586652210266112,
  1155173304420532224, 2310346608841064448, 4620693217682128896, 9241386435364257792, 36028797018963968, 0,
  144115188075855872, 288230376151711744, 576460752303423488, 1152921504606846976, 2305843009213693952, 4611686018427387904,
  9223372036854775808, 0, 0, 0, 0, 0,
  0, 0, 0, 0],
[
  254, 252, 248, 240, 224, 192,
  128, 0, 65024, 64512, 63488, 61440,
  57344, 49152, 32768, 0, 16646144, 16515072,
  16252928, 15728640, 14680064, 12582912, 8388608, 0,
  4261412864, 4227858432, 4160749568, 4026531840, 3758096384, 3221225472,
  2147483648, 0, 1090921693184, 1082331758592, 1065151889408, 1030792151040,
  962072674304, 824633720832, 549755813888, 0, 279275953455104, 277076930199552,
  272678883688448, 263882790666240, 246290604621824, 211106232532992, 140737488355328, 0,
  71494644084506624, 70931694131085312, 69805794224242688, 67553994410557440, 63050394783186944, 54043195528445952,
  36028797018963968, 0, 18302628885633695744, 18158513697557839872, 17870283321406128128, 17293822569102704640,
  16140901064495857664, 13835058055282163712, 9223372036854775808, 0],
[
  0, 0, 0, 0, 0, 0,
  0, 0, 2, 4, 8, 16,
  32, 64, 128, 0, 516, 1032,
  2064, 4128, 8256, 16512, 32768, 0,
  132104, 264208, 528416, 1056832, 2113664, 4227072,
  8388608, 0, 33818640, 67637280, 135274560, 270549120,
  541097984, 1082130432, 2147483648, 0, 8657571872, 17315143744,
  34630287488, 69260574720, 138521083904, 277025390592, 549755813888, 0,
  2216338399296, 4432676798592, 8865353596928, 17730707128320, 35461397479424, 70918499991552,
  140737488355328, 0, 567382630219904, 1134765260439552, 2269530520813568, 4539061024849920,
  9078117754732544, 18155135997837312, 36028797018963968, 0],
[
  0, 0, 0, 0, 0, 0,
  0, 0, 1, 2, 4, 8,
  16, 32, 64, 128, 257, 514,
  1028, 2056, 4112, 8224, 16448, 32896,
  65793, 131586, 263172, 526344, 1052688, 2105376,
  4210752, 8421504, 16843009, 33686018, 67372036, 134744072,
  269488144, 538976288, 1077952576, 2155905152, 4311810305, 8623620610,
  17247241220, 34494482440, 68988964880, 137977929760, 275955859520, 551911719040,
  1103823438081, 2207646876162, 4415293752324, 8830587504648, 17661175009296, 35322350018592,
  70644700037184, 141289400074368, 282578800148737, 565157600297474, 1130315200594948, 2260630401189896,
  4521260802379792, 9042521604759584, 18085043209519168, 36170086419038336],
[
  0, 0, 0, 0, 0, 0,
  0, 0, 0, 1, 2, 4,
  8, 16, 32, 64, 0, 256,
  513, 1026, 2052, 4104, 8208, 16416,
  0, 65536, 131328, 262657, 525314, 1050628,
  2101256, 4202512, 0, 16777216, 33619968, 67240192,
  134480385, 268960770, 537921540, 1075843080, 0, 4294967296,
  8606711808, 17213489152, 34426978560, 68853957121, 137707914242, 275415828484,
  0, 1099511627776, 2203318222848, 4406653222912, 8813306511360, 17626613022976,
  35253226045953, 70506452091906, 0, 281474976710656, 564049465049088, 1128103225065472,
  2256206466908160, 4512412933881856, 9024825867763968, 18049651735527937],
[
  0, 1, 3, 7, 15, 31,
  63, 127, 0, 256, 768, 1792,
  3840, 7936, 16128, 32512, 0, 65536,
  196608, 458752, 983040, 2031616, 4128768, 8323072,
  0, 16777216, 50331648, 117440512, 251658240, 520093696,
  1056964608, 2130706432, 0, 4294967296, 12884901888, 30064771072,
  64424509440, 133143986176, 270582939648, 545460846592, 0, 1099511627776,
  3298534883328, 7696581394432, 16492674416640, 34084860461056, 69269232549888, 139637976727552,
  0, 281474976710656, 844424930131968, 1970324836974592, 4222124650659840, 8725724278030336,
  17732923532771328, 35747322042253312, 0, 72057594037927936, 216172782113783808, 504403158265495552,
  1080863910568919040, 2233785415175766016, 4539628424389459968, 9151314442816847872],
[
  0, 256, 66048, 16909312, 4328785920, 1108169199616,
  283691315109888, 72624976668147712, 0, 65536, 16908288, 4328783872,
  1108169195520, 283691315101696, 72624976668131328, 145249953336262656, 0, 16777216,
  4328521728, 1108168671232, 283691314053120, 72624976666034176, 145249953332068352, 290499906664136704,
  0, 4294967296, 1108101562368, 283691179835392, 72624976397598720, 145249952795197440,
  290499905590394880, 580999811180789760, 0, 1099511627776, 283673999966208, 72624942037860352,
  145249884075720704, 290499768151441408, 580999536302882816, 1161999072605765632, 0, 281474976710656,
  72620543991349248, 145241087982698496, 290482175965396992, 580964351930793984, 1161928703861587968, 2323857407723175936,
  0, 72057594037927936, 144115188075855872, 288230376151711744, 576460752303423488, 1152921504606846976,
  2305843009213693952, 4611686018427387904, 0, 0, 0, 0,
  0, 0, 0, 0]]


/-- Table row lookup: Rust indexing `l[i]` (indices in our uses are in range;
out of range yields 0). -/
def tget (l : List Nat) (i : Nat) : Nat := l.getD i 0

/-- Two-dimensional table lookup `l[i][j]`. -/
def tget2 (l : List (List Nat)) (i j : Nat) : Nat := (l.getD i []).getD j 0


/-- Rust `Dir` opposite, used to build the between-table from rays. -/
def Dir.opp : Dir → Dir
  | .nort => .sout
  | .noea => .sowe
  | .east => .west
  | .soea => .nowe
  | .sout => .nort
  | .sowe => .noea
  | .west => .east
  | .nowe => .soea

/-- The eight directions in index order. -/
def DIRS : List Dir := [.nort, .noea, .east, .soea, .sout, .sowe, .west, .nowe]

/-- Rust `tables::IN_BETWEEN[from][to]`.  Modelled from the spec: the chess
crate's tables module is not under src/.  §3.3 defines the entry as the
set of squares strictly between the two squares along a cardinal or
diagonal ray (empty when they are not ray-aligned), and §4.2 builds
between-masks by intersecting the rays from both endpoints; the ray data
itself is the repository's `RAY_ATTACKS` table. -/
def in_between (a b : Nat) : Nat :=
  DIRS.foldl
    (fun acc d =>
      if (tget2 RAY_ATTACKS d.toNat a).testBit b then
        acc ||| (tget2 RAY_ATTACKS d.toNat a &&& tget2 RAY_ATTACKS d.opp.toNat b)
      else acc)
    0

/-- Rust `Board::pawn_attacks` (table lookup). -/
def pawn_attacks (s : Nat) (c : Color) : Nat := tget2 PAWN_ATTACKS c.toNat s

/-- Rust `Board::knight_attacks` (table lookup). -/
def knight_attacks (s : Nat) : Nat := tget KNIGHT_ATTACKS s

/-- Rust `Board::king_attacks` (table lookup). -/
def king_attacks (s : Nat) : Nat := tget KING_ATTACKS s

/-- Castling-rights masks (src/chess/board.rs). -/
def WKING_SIDE_MASK : Nat := 1
def WQUEEN_SIDE_MASK : Nat := 2
def BKING_SIDE_MASK : Nat := 4
def BQUEEN_SIDE_MASK : Nat := 8

/-- Rust `self.piece_bb[i] ^= x` on the Rust bitboard array. -/
def bbXor (l : List Nat) (i : Nat) (x : Nat) : List Nat := l.set i (l.getD i 0 ^^^ x)

/-- The `Board` struct (src/chess/board.rs): eight piece bitboards
(pawn, knight, bishop, rook, queen, king, white, black), the empty and
occupied boards, the en-passant board, the fifty-move counter (a `u8`)
and the castling-rights nibble. -/
structure Board where
  piece_bb : List Nat
  empty_bb : Nat
  occupied_bb : Nat
  en_passant_bb : Nat
  fifty_move_rule_counter : Nat
  castling_rights : Nat
deriving DecidableEq, Repr

namespace Board

/-- Rust `Board::new`: the standard starting position. -/
def new : Board where
  piece_bb := [PAWN_START, KNIGHT_START, BISHOP_START, ROOK_START,
               QUEEN_START, KING_START, WHITE_START, BLACK_START]
  empty_bb := EMPTY_START
  occupied_bb := OCCUPIED_START
  en_passant_bb := 0
  fifty_move_rule_counter := 0
  castling_rights := 0

/-- Rust `Board::piece_bb(c, p)` (the private query method). -/
def pieceBB (b : Board) (c : Option Color) (p : Piece) : Nat :=
  let intersection := match c with
    | some c => tget b.piece_bb (6 + c.toNat)
    | none => U64MASK
  tget b.piece_bb p.toNat &&& intersection

/-- Rust `Board::color_bb`. -/
def colorBB (b : Board) (c : Color) : Nat :=
  tget b.piece_bb (6 + c.toNat) &&& b.occupied_bb

/-- Rust `Board::pawns_can_push`. -/
def pawns_can_push (b : Board) (c : Color) : Nat :=
  let piece_bb := b.pieceBB (some c) .pawn
  match c with
  | .white => Bitboard.sout_one b.empty_bb &&& piece_bb
  | .black => Bitboard.nort_one b.empty_bb &&& piece_bb

/-- Rust `Board::pawns_can_dpush`. -/
def pawns_can_dpush (b : Board) (c : Color) : Nat :=
  let piece_bb := b.pieceBB (some c) .pawn
  match c with
  | .white =>
    let empty_rank3 := Bitboard.sout_one (b.empty_bb &&& RANK4) &&& b.empty_bb
    Bitboard.sout_one empty_rank3 &&& piece_bb
  | .black =>
    let empty_rank6 := Bitboard.nort_one (b.empty_bb &&& RANK5) &&& b.empty_bb
    Bitboard.sout_one empty_rank6 &&& piece_bb

/-- Rust `Board::ray_attacks` (src/chess/board.rs lines 242-258): the ray in
direction `d` from `s`, cut at the first blocker found with `bit_scan`
for positive directions and `bit_scan_reverse` for negative ones. -/
def ray_attacks (b : Board) (d : Dir) (s : Nat) (occ : Option Nat) : Nat :=
  let occupied_bb := occ.getD b.occupied_bb
  let attacks := tget2 RAY_ATTACKS d.toNat s
  let blocking := attacks &&& occupied_bb
  let blocker := if d.pos then Bitboard.bit_scan blocking
                 else Bitboard.bit_scan_reverse blocking
  match blocker with
  | some bl => attacks ^^^ tget2 RAY_ATTACKS d.toNat bl
  | none => attacks

/-- Rust `Board::diag_attacks`. -/
def diag_attacks (b : Board) (s : Nat) (occ : Option Nat) : Nat :=
  b.ray_attacks .noea s occ ||| b.ray_attacks .sowe s occ

/-- Rust `Board::anti_diag_attacks`. -/
def anti_diag_attacks (b : Board) (s : Nat) (occ : Option Nat) : Nat :=
  b.ray_attacks .nowe s occ ||| b.ray_attacks .soea s occ

/-- Rust `Board::file_attacks`. -/
def file_attacks (b : Board) (s : Nat) (occ : Option Nat) : Nat :=
  b.ray_attacks .nort s occ ||| b.ray_attacks .sout s occ

/-- Rust `Board::rank_attacks`. -/
def rank_attacks (b : Board) (s : Nat) (occ : Option Nat) : Nat :=
  b.ray_attacks .east s occ ||| b.ray_attacks .west s occ

/-- Rust `Board::bishop_attacks`. -/
def bishop_attacks (b : Board) (s : Nat) (occ : Option Nat) : Nat :=
  b.diag_attacks s occ ||| b.anti_diag_attacks s occ

/-- Rust `Board::rook_attacks`. -/
def rook_attacks (b : Board) (s : Nat) (occ : Option Nat) : Nat :=
  b.file_attacks s occ ||| b.rank_attacks s occ

/-- Rust `Board::queen_attacks`. -/
def queen_attacks (b : Board) (s : Nat) (occ : Option Nat) : Nat :=
  b.rook_attacks s occ ||| b.bishop_attacks s occ

/-- Rust `Board::attacks_to`. -/
def attacks_to (b : Board) (s : Nat) (byColor : Color) : Nat :=
  b.colorBB byColor &&&
    (pawn_attacks s byColor.op &&& b.pieceBB none .pawn |||
     knight_attacks s &&& b.pieceBB none .knight |||
     king_attacks s &&& b.pieceBB none .king |||
     b.bishop_attacks s none &&& (b.pieceBB none .bishop ||| b.pieceBB none .queen) |||
     b.rook_attacks s none &&& (b.pieceBB none .rook ||| b.pieceBB none .queen))

/-- Rust `Board::xray_rook_attacks`. -/
def xray_rook_attacks (b : Board) (blockers : Nat) (rook_square : Nat) : Nat :=
  let attacks := b.rook_attacks rook_square none
  let actual_blockers := attacks &&& blockers
  attacks ^^^ b.rook_attacks rook_square (some (actual_blockers ^^^ b.occupied_bb))

/-- Rust `Board::xray_bishop_attacks`. -/
def xray_bishop_attacks (b : Board) (blockers : Nat) (bishop_square : Nat) : Nat :=
  let attacks := b.bishop_attacks bishop_square none
  let actual_blockers := attacks &&& blockers
  attacks ^^^ b.bishop_attacks bishop_square (some (actual_blockers ^^^ b.occupied_bb))

/-- Rust `Board::pins` (src/chess/board.rs lines 368-393).  The source first
accumulates the rook-ray pins into `pinned`, then re-declares
`let mut pinned = Bitboard(0)` before the bishop-ray loop; the rook-pin
accumulation (`pinnedRook` below) is therefore discarded and only the
bishop-ray result is returned. -/
def pins (b : Board) (onColor : Color) (kingSquare : Nat) : Nat :=
  let op_rq := b.pieceBB (some onColor.op) .rook ||| b.pieceBB (some onColor.op) .queen
  let pinnersRook := b.xray_rook_attacks (b.colorBB onColor) kingSquare &&& op_rq
  let pinnedRook := (Bitboard.toList pinnersRook).foldl
    (fun acc sq => acc ||| (in_between sq kingSquare &&& b.colorBB onColor)) 0
  let op_bq := b.pieceBB (some onColor.op) .bishop ||| b.pieceBB (some onColor.op) .queen
  -- shadowing re-declaration: `pinnedRook` is dead from here on
  let _ := pinnedRook
  let pinnersBishop := b.xray_bishop_attacks (b.colorBB onColor) kingSquare &&& op_bq
  let pinnedBishop := (Bitboard.toList pinnersBishop).foldl
    (fun acc sq => acc ||| (in_between sq kingSquare &&& b.colorBB onColor)) 0
  pinnedBishop

/-- Rust `Board::piece_on_square`.  The trailing `panic!()` (color bit set but
no piece bitboard set) is modelled as `none`; it is unreachable on
boards whose color bitboards are covered by the piece bitboards. -/
def piece_on_square (b : Board) (s : Nat) : Option CPiece :=
  let bb := squareBB s
  let c? : Option Color :=
    if Bitboard.occupied (bb &&& b.colorBB .white) then some .white
    else if Bitboard.occupied (bb &&& b.colorBB .black) then some .black
    else none
  match c? with
  | none => none
  | some c =>
    match (List.range 6).find? (fun i => Bitboard.occupied (tget b.piece_bb i &&& bb)) with
    | some i => (Piece.ofNat? i).map (fun p => ⟨p, c⟩)
    | none => none

/-- Rust `Board::make_move_mut` (src/chess/board.rs lines 397-501), with
`unwrap` failures surfaced as `none`.  The castle branches return early
without touching the en-passant board or the occupancy boards, exactly
as in the source; the queen-castle rook constants reproduce the
source's `Bitboard(1) | Bitboard(1 >> 3)` and
`Bitboard(56) | Bitboard(1 << 53)`. -/
def make_move_mut (b : Board) (m : Nat) : Option Board :=
  let promo_piece := CMove.is_promo m
  let fromSq := CMove.get_from m
  let from_bb := squareBB fromSq
  let to_bb := squareBB (CMove.get_to m)
  let from_to_bb := from_bb ^^^ to_bb
  match b.piece_on_square fromSq with
  | none => none
  | some cp =>
    let piece := cp.piece
    let color := cp.color
    if CMove.is_king_castle m then
      let pb := bbXor b.piece_bb piece.toNat from_to_bb
      let rc : Nat × Nat := match color with
        | .white => (shl 1 7 ||| shl 1 5, 12)
        | .black => (shl 1 63 ||| shl 1 61, 3)
      let pb := bbXor pb Piece.rook.toNat rc.1
      some { b with piece_bb := pb, castling_rights := b.castling_rights &&& rc.2 }
    else if CMove.is_queen_castle m then
      let pb := bbXor b.piece_bb piece.toNat from_to_bb
      let rc : Nat × Nat := match color with
        | .white => ((1 : Nat) ||| shr 1 3, 12)
        | .black => ((56 : Nat) ||| shl 1 53, 3)
      let pb := bbXor pb Piece.rook.toNat rc.1
      some { b with piece_bb := pb, castling_rights := b.castling_rights &&& rc.2 }
    else
      let step? : Option Board :=
        if CMove.is_capture m then
          let b1 : Board :=
            { b with fifty_move_rule_counter := 0,
                     piece_bb := bbXor (bbXor b.piece_bb piece.toNat from_to_bb)
                       (6 + color.toNat) from_to_bb }
          match b1.piece_on_square (CMove.get_to m) with
          | none => none
          | some cap =>
            let pb := bbXor b1.piece_bb cap.piece.toNat to_bb
            let pb := match promo_piece with
              | some pp => bbXor (bbXor pb piece.toNat to_bb) pp.toNat to_bb
              | none => pb
            let pb := bbXor pb (6 + cap.color.toNat) to_bb
            some { b1 with piece_bb := pb,
                           occupied_bb := b1.occupied_bb ^^^ from_bb,
                           empty_bb := b1.empty_bb ^^^ from_bb }
        else
          let pb := match promo_piece with
            | some pp => bbXor (bbXor b.piece_bb piece.toNat from_bb) pp.toNat to_bb
            | none => bbXor b.piece_bb piece.toNat from_to_bb
          let fifty := match piece with
            | .pawn => 0
            | _ => (b.fifty_move_rule_counter + 1) % 256
          let pb := bbXor pb (6 + color.toNat) from_to_bb
          some { b with piece_bb := pb,
                        fifty_move_rule_counter := fifty,
                        occupied_bb := b.occupied_bb ^^^ from_bb,
                        empty_bb := b.empty_bb ^^^ from_bb }
      match step? with
      | none => none
      | some b2 =>
        let ep := if CMove.is_pawn_dpush m then squareBB (CMove.get_to m) else 0
        let cr := match piece, color with
          | .king, .white => b2.castling_rights &&& 12
          | .king, .black => b2.castling_rights &&& 3
          | _, _ => b2.castling_rights
        let cr := match piece, fromSq with
          | .rook, 0 => cr &&& 13
          | .rook, 7 => cr &&& 15
          | .rook, 56 => cr &&& 7
          | .rook, 63 => cr &&& 11
          | _, _ => cr
        some { b2 with en_passant_bb := ep, castling_rights := cr }

/-- Rust `Board::from_piece_list` (src/chess/board.rs lines 68-95): rejects
lists whose length is not 64, then fills the bitboards from indices
`0..63` (exclusive, as in the source's `for i in 0..63`). -/
def from_piece_list (piece_list : List (Option CPiece)) : Option Board :=
  if piece_list.length ≠ 64 then none
  else
    let acc := (List.range 63).foldl
      (fun (acc : List Nat × Nat) i =>
        match piece_list.getD i none with
        | some cp =>
          let square_bb := shl 1 i
          let pb := acc.1.set cp.piece.toNat (acc.1.getD cp.piece.toNat 0 ||| square_bb)
          let pb := pb.set (6 + cp.color.toNat) (pb.getD (6 + cp.color.toNat) 0 ||| square_bb)
          (pb, acc.2 ||| square_bb)
        | none => acc)
      ([0, 0, 0, 0, 0, 0, 0, 0], 0)
    some { piece_bb := acc.1, empty_bb := bnot acc.2, occupied_bb := acc.2,
           en_passant_bb := 0, fifty_move_rule_counter := 0, castling_rights := 0 }

/-- Rust `Board::to_piece_list` (src/chess/board.rs lines 97-102): maps
`piece_on_square` over the squares `0..63` (exclusive, as in the
source's `(0..63)`). -/
def to_piece_list (b : Board) : List (Option CPiece) :=
  (List.range 63).map (fun s => b.piece_on_square s)

/-- Rust `Board::ep_moves` (src/chess/board.rs lines 675-702).  Both branches
read `ep_capture_west_pawn` for the `from` square, as in the source. -/
def ep_moves (forColor : Color) (withPawns pawnDpushed : Nat) : Option (List Nat) := do
  let ep_capture_west_pawn := Bitboard.east_one pawnDpushed &&& withPawns
  let ep_capture_east_pawn := Bitboard.west_one pawnDpushed &&& withPawns
  let west ←
    if Bitboard.occupied ep_capture_west_pawn then do
      let sq ← Bitboard.bit_scan ep_capture_west_pawn
      let t ← match forColor with
        | .white => translate sq .nowe 1
        | .black => translate sq .sowe 1
      pure [CMove.new sq t FLAG_EP_CAPTURE]
    else pure []
  let east ←
    if Bitboard.occupied ep_capture_east_pawn then do
      let sq ← Bitboard.bit_scan ep_capture_west_pawn
      let t ← match forColor with
        | .white => translate sq .noea 1
        | .black => translate sq .soea 1
      pure [CMove.new sq t FLAG_EP_CAPTURE]
    else pure []
  pure (west ++ east)

/-- Rust `Board::generate_pawn_moves`. -/
def generate_pawn_moves (b : Board) (forColor : Color) (notPinned : Nat) :
    Option (List Nat) := do
  let op_occupied := b.colorBB forColor.op
  let pawn_bb := b.pieceBB (some forColor) .pawn &&& notPinned
  let can_push := b.pawns_can_push forColor
  let can_dpush := b.pawns_can_dpush forColor
  let regular ← (Bitboard.toList pawn_bb).mapM (fun sq => do
    let can_attack := pawn_attacks sq forColor &&& op_occupied
    let this_pawn_bb := squareBB sq
    let pushes ←
      if Bitboard.occupied (can_push &&& this_pawn_bb) then do
        let toDir := match forColor with | .white => Dir.nort | .black => Dir.sout
        let t ← translate sq toDir 1
        pure [CMove.new sq t FLAG_QUIET]
      else pure []
    let dpushes ←
      if Bitboard.occupied (can_dpush &&& this_pawn_bb) then do
        let toDir := match forColor with | .white => Dir.nort | .black => Dir.sout
        let t ← translate sq toDir 2
        pure [CMove.new sq t FLAG_PAWN_DPUSH]
      else pure []
    let caps := (Bitboard.toList can_attack).map (fun t => CMove.new sq t FLAG_CAPTURE)
    pure (pushes ++ dpushes ++ caps))
  let eps ← ep_moves forColor pawn_bb b.en_passant_bb
  pure (regular.flatten ++ eps)

/-- Rust `Board::generate_piece_moves`. -/
def generate_piece_moves (b : Board) (forPiece : Piece) (forColor : Color)
    (notPinned : Nat) : Option (List Nat) :=
  match forPiece with
  | .pawn => b.generate_pawn_moves forColor notPinned
  | _ =>
    let piece_bb := b.pieceBB (some forColor) forPiece
    some (((Bitboard.toList piece_bb).map (fun sq =>
      let can_attack := (match forPiece with
        | .knight => knight_attacks sq
        | .bishop => b.bishop_attacks sq none
        | .rook => b.rook_attacks sq none
        | .queen => b.queen_attacks sq none
        | .king => king_attacks sq
        | .pawn => 0) -- unreachable: the pawn case is handled above
        &&& bnot (b.colorBB forColor)
      (Bitboard.toList can_attack).map (fun t =>
        let flag := if Bitboard.occupied (squareBB t &&& b.occupied_bb)
                    then FLAG_CAPTURE else FLAG_QUIET
        CMove.new sq t flag))).flatten)

/-- Rust `Board::out_of_check_moves`. -/
def out_of_check_moves (b : Board) (kingSquare attacksToKing : Nat)
    (forColor : Color) (notPinned : Nat) : Option (List Nat) := do
  let king_attacks_bb := king_attacks kingSquare
  let not_to_own_piece := king_attacks_bb &&& bnot (b.colorBB forColor)
  let king_moves := (Bitboard.toList not_to_own_piece).filterMap (fun t =>
    if Bitboard.occupied (b.attacks_to t forColor.op) then none
    else if (b.piece_on_square t).isSome then some (CMove.new kingSquare t FLAG_CAPTURE)
    else some (CMove.new kingSquare t FLAG_QUIET))
  if Bitboard.count attacksToKing > 1 then
    pure king_moves
  else do
    let attacker ← Bitboard.bit_scan attacksToKing
    let can_capture := b.attacks_to attacker forColor &&& notPinned
    let capture_moves := (Bitboard.toList can_capture).map
      (fun sq => CMove.new sq attacker FLAG_CAPTURE)
    let dpush_king_attack := attacksToKing &&& b.en_passant_bb
    if Bitboard.isEmpty dpush_king_attack then
      pure (king_moves ++ capture_moves)
    else do
      let pawns_not_pinned := b.pieceBB (some forColor) .pawn &&& notPinned
      let eps ← ep_moves forColor pawns_not_pinned dpush_king_attack
      pure (king_moves ++ capture_moves ++ eps)

/-- Rust `Board::castle_moves` (src/chess/board.rs lines 704-744), including
the source's mask and square slips (the white queen-side branch tests
`BKING_SIDE_MASK`; the black queen-side branch tests `BKING_SIDE_MASK`,
consults attacks on c1/d1 by Black, and emits `E8 C8 KING_CASTLE`). -/
def castle_moves (b : Board) (forColor : Color) : List Nat :=
  match forColor with
  | .white =>
    (if b.castling_rights &&& WKING_SIDE_MASK > 0 then
      if Bitboard.isEmpty (b.attacks_to 5 .black ||| b.attacks_to 6 .black) ∧
         Bitboard.isEmpty (b.occupied_bb &&& (shl 1 6 ||| shl 1 5)) then
        [CMove.new 4 6 FLAG_KING_CASTLE]
      else []
    else []) ++
    (if b.castling_rights &&& BKING_SIDE_MASK > 0 then
      if Bitboard.isEmpty (b.attacks_to 2 .black ||| b.attacks_to 3 .black) ∧
         Bitboard.isEmpty (b.occupied_bb &&& (shl 1 3 ||| shl 1 4)) then
        [CMove.new 4 2 FLAG_QUEEN_CASTLE]
      else []
    else [])
  | .black =>
    (if b.castling_rights &&& BKING_SIDE_MASK > 0 then
      if Bitboard.isEmpty (b.attacks_to 61 .white ||| b.attacks_to 62 .white) ∧
         Bitboard.isEmpty (b.occupied_bb &&& (shl 1 62 ||| shl 1 61)) then
        [CMove.new 60 62 FLAG_KING_CASTLE]
      else []
    else []) ++
    (if b.castling_rights &&& BKING_SIDE_MASK > 0 then
      if Bitboard.isEmpty (b.attacks_to 2 .black ||| b.attacks_to 3 .black) ∧
         Bitboard.isEmpty (b.occupied_bb &&& (shl 1 58 ||| shl 1 59)) then
        [CMove.new 60 58 FLAG_KING_CASTLE]
      else []
    else [])

/-- Rust `Board::generate_moves` (src/chess/board.rs lines 529-549): returns
the empty list as soon as `fifty_move_rule_counter >= 50`, otherwise
generates per-piece moves (plus castling) or check evasions. -/
def generate_moves (b : Board) (forColor : Color) : Option (List Nat) :=
  if b.fifty_move_rule_counter ≥ 50 then some []
  else do
    let king_bb := b.pieceBB (some forColor) .king
    let kingSquare ← Bitboard.bit_scan king_bb
    let attacksToKing := b.attacks_to kingSquare forColor.op
    let checked := Bitboard.occupied attacksToKing
    let notPinned := bnot (b.pins forColor kingSquare)
    if checked then
      b.out_of_check_moves kingSquare attacksToKing forColor notPinned
    else do
      let pieceMoves ← ([Piece.pawn, .knight, .bishop, .rook, .queen, .king]).mapM
        (fun p => b.generate_piece_moves p forColor notPinned)
      pure (pieceMoves.flatten ++ b.castle_moves forColor)

end Board


/-- Test position with a white king on a1 and a black king on h8 and no
other pieces.  It satisfies the universal invariants, the generator does
not report it as in check, and White has the three king moves a1-b1,
a1-a2, a1-b2. -/
def kingsOnlyBoard : Board where
  piece_bb := [0, 0, 0, 0, 0, 2 ^ 0 + 2 ^ 63, 2 ^ 0, 2 ^ 63]
  empty_bb := bnot (2 ^ 0 + 2 ^ 63)
  occupied_bb := 2 ^ 0 + 2 ^ 63
  en_passant_bb := 0
  fifty_move_rule_counter := 0
  castling_rights := 0

/-- Test position with a white king on e1 and knight on e2, and a black
rook on e8 and king on h8: the knight is orthogonally pinned by the
rook. -/
def pinTestBoard : Board where
  piece_bb := [0, 2 ^ 12, 0, 2 ^ 60, 0, 2 ^ 4 + 2 ^ 63, 2 ^ 4 + 2 ^ 12, 2 ^ 60 + 2 ^ 63]
  empty_bb := bnot (2 ^ 4 + 2 ^ 12 + 2 ^ 60 + 2 ^ 63)
  occupied_bb := 2 ^ 4 + 2 ^ 12 + 2 ^ 60 + 2 ^ 63
  en_passant_bb := 0
  fifty_move_rule_counter := 0
  castling_rights := 0

/-- Test position with a white king on e1 and rook on a1 (queen-side
castling rights set for White) and a black king on h8. -/
def queenCastleBoard : Board where
  piece_bb := [0, 0, 0, 2 ^ 0, 0, 2 ^ 4 + 2 ^ 63, 2 ^ 0 + 2 ^ 4, 2 ^ 63]
  empty_bb := bnot (2 ^ 0 + 2 ^ 4 + 2 ^ 63)
  occupied_bb := 2 ^ 0 + 2 ^ 4 + 2 ^ 63
  en_passant_bb := 0
  fifty_move_rule_counter := 0
  castling_rights := 3

/-- Test position with a white pawn on e2, white king on a1 and black
king on h8; the double push e2-e4 is available. -/
def pawnDpushBoard : Board where
  piece_bb := [2 ^ 12, 0, 0, 0, 0, 2 ^ 0 + 2 ^ 63, 2 ^ 0 + 2 ^ 12, 2 ^ 63]
  empty_bb := bnot (2 ^ 0 + 2 ^ 12 + 2 ^ 63)
  occupied_bb := 2 ^ 0 + 2 ^ 12 + 2 ^ 63
  en_passant_bb := 0
  fifty_move_rule_counter := 0
  castling_rights := 0

/-- Any hit reported by `findBitFrom` is a set bit, lies at or after the
start index, and is the first set bit from the start index on. -/
theorem findBitFrom_eq_some (b : Nat) :
    ∀ fuel i j, Bitboard.findBitFrom b fuel i = some j →
      b.testBit j = true ∧ i ≤ j ∧ ∀ k, i ≤ k → k < j → b.testBit k = false := by
  intro fuel
  induction fuel with
  | zero => intro i j h; simp [Bitboard.findBitFrom] at h
  | succ n ih =>
    intro i j h
    rw [Bitboard.findBitFrom] at h
    split at h
    · next hb =>
      obtain rfl : i = j := by injection h
      exact ⟨hb, Nat.le_refl _, fun k hk1 hk2 => ((Nat.not_lt.mpr hk1) hk2).elim⟩
    · next hb =>
      have hbf : b.testBit i = false := by revert hb; cases b.testBit i <;> simp
      obtain ⟨hj, hij, hmin⟩ := ih (i + 1) j h
      refine ⟨hj, by omega, fun k hk1 hk2 => ?_⟩
      rcases Nat.eq_or_lt_of_le hk1 with rfl | hlt
      · exact hbf
      · exact hmin k hlt hk2

/-- `findBitFrom` finds something whenever a set bit lies in its scan
window. -/
theorem findBitFrom_isSome (b : Nat) :
    ∀ fuel i j, i ≤ j → j < i + fuel → b.testBit j = true →
      (Bitboard.findBitFrom b fuel i).isSome = true := by
  intro fuel
  induction fuel with
  | zero => intro i j h1 h2 _; omega
  | succ n ih =>
    intro i j h1 h2 hj
    rw [Bitboard.findBitFrom]
    split
    · rfl
    · next hb =>
      have hne : i ≠ j := fun he => hb (he ▸ hj)
      exact ih (i + 1) j (by omega) (by omega) hj

/-- `findTopBit` finds something whenever a set bit lies in its scan
window. -/
theorem findTopBit_isSome (b : Nat) :
    ∀ fuel i j, i ≤ j → j < i + fuel → b.testBit (63 - j) = true →
      (Bitboard.findTopBit b fuel i).isSome = true := by
  intro fuel
  induction fuel with
  | zero => intro i j h1 h2 _; omega
  | succ n ih =>
    intro i j h1 h2 hj
    rw [Bitboard.findTopBit]
    split
    · rfl
    · next hb =>
      have hne : i ≠ j := fun he => hb (he ▸ hj)
      exact ih (i + 1) j (by omega) (by omega) hj

/-- A non-zero natural number has a set bit. -/
theorem exists_testBit_of_ne_zero (b : Nat) (h : b ≠ 0) : ∃ j, b.testBit j = true := by
  by_contra hc
  push_neg at hc
  refine h (Nat.eq_of_testBit_eq fun i => ?_)
  rw [Nat.zero_testBit]
  simpa using hc i

/-- Set bits of a 64-bit value lie below index 64. -/
theorem testBit_lt_64_of_lt (b j : Nat) (hb : b < 2 ^ 64) (h : b.testBit j = true) :
    j < 64 := by
  by_contra hc
  push_neg at hc
  have h1 : 2 ^ j ≤ b := Nat.testBit_implies_ge h
  have h2 : (2 : Nat) ^ 64 ≤ 2 ^ j := Nat.pow_le_pow_right (by norm_num) hc
  omega

/-- C1: the claim says `generate_moves` for White on the standard starting
position (`Board::new`) returns exactly the 20 moves a3,a4,...,h3,h4 and
Na3,Nc3,Nf3,Nh3.  In fact the code returns the empty list: the broken
`bit_scan_reverse` (leading-zero count instead of most-significant-bit
index) makes `attacks_to` report the e1 king as attacked by the a8 rook
and the d8 queen, so the generator treats the position as a double check
with no king evasions. -/
theorem c1_start_position_generates_no_moves :
    Board.generate_moves Board.new Color.white = some [] ∧
    ((Board.generate_moves Board.new Color.white).getD []).length ≠ 20 := by decide

/-- C2: the claim says `ray_attacks(d, s, O)` always returns the ray
truncated at the first blocker (MSB of the blocker set for negative
directions).  Counterexample: direction South from a8 (square 56) with
occupancy {a4} (bit 24).  The blocker set is exactly {24}, so the claim
requires `RAY[S][56] XOR RAY[S][24]` = {a4,a5,a6,a7}; the code instead
scans with the leading-zero count 39 and XORs `RAY[S][39]`, returning
{a1..a7, h1..h4}. -/
theorem c2_ray_attacks_negative_direction_wrong :
    tget2 RAY_ATTACKS Dir.sout.toNat 56 &&& 2 ^ 24 = 2 ^ 24 ∧
    Board.ray_attacks Board.new Dir.sout 56 (some (2 ^ 24)) ≠
      (tget2 RAY_ATTACKS Dir.sout.toNat 56 ^^^ tget2 RAY_ATTACKS Dir.sout.toNat 24) := by decide

/-- C3: the claim says `pins` returns the union of the orthogonal and
diagonal pins.  Counterexample: white king e1, white knight e2, black
rook e8 (plus a black king on h8).  The rook-ray pass correctly finds
the rook on e8 as a pinner and the knight (bit 12) as the pinned piece,
but the mid-function re-declaration of `pinned` discards that
accumulation and `pins` returns the empty board. -/
theorem c3_orthogonal_pins_dropped :
    pinTestBoard.xray_rook_attacks (pinTestBoard.colorBB Color.white) 4 &&&
      (pinTestBoard.pieceBB (some Color.black) Piece.rook |||
       pinTestBoard.pieceBB (some Color.black) Piece.queen) = 2 ^ 60 ∧
    in_between 60 4 &&& pinTestBoard.colorBB Color.white = 2 ^ 12 ∧
    Board.pins pinTestBoard Color.white 4 = 0 := by decide

/-- C4: the claim says the fifty-move cutoff in `generate_moves` is 100
and that a clock below 100 never by itself empties the move list.  The
code compares the ply counter against 50: the kings-only position has
three legal king moves at clock 0, yet returns the empty list at clock
50 (which is below 100). -/
theorem c4_fifty_move_cutoff_is_50 :
    Board.generate_moves { kingsOnlyBoard with fifty_move_rule_counter := 50 } Color.white =
      some [] ∧
    (50 : Nat) < 100 ∧
    Board.generate_moves kingsOnlyBoard Color.white =
      some [CMove.new 0 1 FLAG_QUIET, CMove.new 0 8 FLAG_QUIET, CMove.new 0 9 FLAG_QUIET] := by
  decide

/-- C5: the claim says `make_move_mut` preserves the universal invariants
for every generated move.  Counterexample: the kings-only position
satisfies the invariants and `generate_moves` produces the quiet king
move a1-b1, but the quiet branch XORs `occupied_bb` (and `empty_bb`)
with the from-square only, so afterwards the occupancy {h8} no longer
equals the union {b1, h8} of the color boards (the complement invariant
does still hold). -/
theorem c5_quiet_move_breaks_occupancy_invariant :
    (kingsOnlyBoard.empty_bb = bnot kingsOnlyBoard.occupied_bb ∧
     kingsOnlyBoard.occupied_bb =
       (tget kingsOnlyBoard.piece_bb 6 ||| tget kingsOnlyBoard.piece_bb 7) ∧
     tget kingsOnlyBoard.piece_bb 6 &&& tget kingsOnlyBoard.piece_bb 7 = 0) ∧
    CMove.new 0 1 FLAG_QUIET ∈ (Board.generate_moves kingsOnlyBoard Color.white).getD [] ∧
    (Board.make_move_mut kingsOnlyBoard (CMove.new 0 1 FLAG_QUIET)).map Board.occupied_bb =
      some (2 ^ 63) ∧
    (Board.make_move_mut kingsOnlyBoard (CMove.new 0 1 FLAG_QUIET)).map
      (fun b => tget b.piece_bb 6 ||| tget b.piece_bb 7) = some (2 ^ 1 + 2 ^ 63) ∧
    (2 ^ 63 : Nat) ≠ 2 ^ 1 + 2 ^ 63 := by decide

/-- C6: the claim says the en-passant board after `make_move_mut` is
`{to}` exactly when the move carries the double-push flag and empty
otherwise.  `is_pawn_dpush` compares the whole packed word with 1, so
the quiet king move a1-b1 (packed word 1, flag 0) sets the en-passant
board to {b1}; and the genuine double push e2-e4 (flag 1, packed word
4892) is not recognized — its word has bit 2 set from the to-square, so
it takes the capture branch and aborts on the empty target square. -/
theorem c6_en_passant_set_by_word_not_flag :
    CMove.get_flags (CMove.new 0 1 FLAG_QUIET) = FLAG_QUIET ∧
    (Board.make_move_mut kingsOnlyBoard (CMove.new 0 1 FLAG_QUIET)).map Board.en_passant_bb =
      some (2 ^ 1) ∧
    (2 ^ 1 : Nat) ≠ 0 ∧
    CMove.get_flags (CMove.new 12 28 FLAG_PAWN_DPUSH) = FLAG_PAWN_DPUSH ∧
    Board.make_move_mut pawnDpushBoard (CMove.new 12 28 FLAG_PAWN_DPUSH) = none := by decide

/-- C7: the claim says `is_capture` is true exactly for flag codes
4, 5, 12, 13, 14, 15 and ignores the square bits.  The code tests
`word & 4` on the whole packed word, i.e. bit 2 of the to-square: a move
with capture flag 4 to b1 (to = 1) reports false, while a quiet move
(flag 0) to e1 (to = 4) reports true. -/
theorem c7_is_capture_reads_to_square :
    CMove.get_flags (CMove.new 0 1 FLAG_CAPTURE) = 4 ∧
    CMove.is_capture (CMove.new 0 1 FLAG_CAPTURE) = false ∧
    CMove.get_flags (CMove.new 0 4 FLAG_QUIET) = 0 ∧
    CMove.is_capture (CMove.new 0 4 FLAG_QUIET) = true := by decide

/-- C8: the claim says `to_piece_list` returns a 64-entry square-indexed
array and `from_piece_list` reconstructs the position from it.  Both
iterate over `0..63` exclusive: `to_piece_list` returns 63 entries
(square h8 is missing), and `from_piece_list` rejects any list whose
length is not 64, so the round trip fails on the starting position. -/
theorem c8_piece_list_round_trip_fails :
    (Board.to_piece_list Board.new).length = 63 ∧
    Board.from_piece_list (Board.to_piece_list Board.new) = none := by decide

/-- C9: the claim says applying the white queen-side castle move moves
the rook a1 to d1 and updates the color and occupancy boards.  The move
e1-c1 with flag 3 packs to word 12546, which `is_queen_castle`
(whole word == 3) does not recognize; the move falls into the quiet
branch, the
king walks to c1 and the rook bitboard is left untouched on a1 (and even
the dedicated branch would XOR the rook board by `Bitboard(1 | 1 >> 3)`
= {a1} rather than {a1, d1}). -/
theorem c9_queen_castle_rook_unmoved :
    queenCastleBoard.pieceBB (some Color.white) Piece.rook = 2 ^ 0 ∧
    (Board.make_move_mut queenCastleBoard (CMove.new 4 2 FLAG_QUEEN_CASTLE)).map
      (fun b => tget b.piece_bb Piece.rook.toNat) = some (2 ^ 0) ∧
    (2 ^ 0 : Nat) ≠ 2 ^ 3 ∧
    CMove.is_queen_castle (CMove.new 4 2 FLAG_QUEEN_CASTLE) = false := by decide

/-- C10: `bit_scan` and `bit_scan_reverse` are total: both return `none`
on the empty board, and on every non-empty 64-bit board `bit_scan`
returns `some` of the index of the least-significant set bit (and
`bit_scan_reverse` returns `some` value as well). -/
theorem c10_bit_scans_total (b : Nat) (hb : b < 2 ^ 64) (hnz : b ≠ 0) :
    Bitboard.bit_scan 0 = none ∧ Bitboard.bit_scan_reverse 0 = none ∧
    (Bitboard.bit_scan_reverse b).isSome = true ∧
    ∃ i, Bitboard.bit_scan b = some i ∧ b.testBit i = true ∧
      ∀ j, j < i → b.testBit j = false := by
  obtain ⟨j, hj⟩ := exists_testBit_of_ne_zero b hnz
  have hj64 : j < 64 := testBit_lt_64_of_lt b j hb hj
  refine ⟨by decide, by decide, ?_, ?_⟩
  · refine findTopBit_isSome b 64 0 (63 - j) (Nat.zero_le _) (by omega) ?_
    rw [show 63 - (63 - j) = j by omega]
    exact hj
  · have hsome := findBitFrom_isSome b 64 0 j (Nat.zero_le _) (by omega) hj
    obtain ⟨i, hi⟩ := Option.isSome_iff_exists.mp hsome
    obtain ⟨hbit, _, hmin⟩ := findBitFrom_eq_some b 64 0 i hi
    exact ⟨i, hi, hbit, fun k hk => hmin k (Nat.zero_le _) hk⟩

/-- Witness for C10 at the concrete board 12 = {c1, d1}: the
least-significant set bit is 2. -/
theorem c10_bit_scans_total_witness :
    Bitboard.bit_scan 0 = none ∧ Bitboard.bit_scan_reverse 0 = none ∧
    (Bitboard.bit_scan_reverse 12).isSome = true ∧
    ∃ i, Bitboard.bit_scan 12 = some i ∧ (12 : Nat).testBit i = true ∧
      ∀ j, j < i → (12 : Nat).testBit j = false :=
  c10_bit_scans_total 12 (by norm_num) (by norm_num)

end Chess
